import Mathlib

/-!
Verification of the signv repository's core transports against its
natural-language specification.

The development shallowly embeds the relevant source functions:

* the line framer inside `readLoop` / `processLine` of
  `src/hooks/useSerial.ts` (byte chunks → trimmed, non-empty lines), with
  the streaming `TextDecoder` modelled as a byte-at-a-time incremental
  UTF-8 automaton (WHATWG decoding algorithm, `fatal:false`);
* the stream-end (`done`) handling of both `readLoop` variants
  (`src/hooks/useSerial.ts` and `src/unnamed/part_002`);
* the device adapter's `disconnect` (`src/hooks/useSerial.ts`);
* the peer session manager of `src/hooks/useRemote.ts`
  (`initializePeer`'s error and connection handlers, `attemptConnection`,
  `sendData`, and the 2-second retry loop), with imperative handlers
  embedded as pure functions from their read state to an ordered list of
  primitive effects plus their updated state;
* the app-level router `handleIncomingText` / `handleClearHistory`
  (dedup, SOS sentinel, history ring) of the main App component.

Machine integers do not occur; byte values are modelled as `Nat` and text
as `List Char`.
-/

/-! ## Incremental UTF-8 decoder

Model of the platform `TextDecoder` used with `{ stream: true }` in
`readLoop` (`readBuffer.current += textDecoder.current.decode(value, { stream: true })`).
The decoder state carries the partially accumulated code point of an
in-progress multi-byte sequence, so a chunk boundary may fall anywhere,
including mid-character.  The step function follows the WHATWG UTF-8
decoding algorithm (`fatal : false`, malformed input yields U+FFFD).
-/

/-- The Unicode replacement character U+FFFD emitted for malformed input. -/
def replacementChar : Char := Char.ofNat 0xFFFD

/-- State of the incremental UTF-8 decoder: the partially accumulated code
point, the number of continuation bytes still expected, and the admissible
range for the next continuation byte. -/
structure DecoderState where
  codepoint : Nat
  needed : Nat
  lower : Nat
  upper : Nat
deriving DecidableEq, Repr

/-- Fresh decoder state (no multi-byte sequence in progress). -/
def DecoderState.init : DecoderState := ⟨0, 0, 0x80, 0xBF⟩

/-- Decode one byte arriving while no multi-byte sequence is in progress. -/
def utf8Start (b : Nat) : DecoderState × List Char :=
  if b ≤ 0x7F then (DecoderState.init, [Char.ofNat b])
  else if 0xC2 ≤ b ∧ b ≤ 0xDF then (⟨b % 32, 1, 0x80, 0xBF⟩, [])
  else if 0xE0 ≤ b ∧ b ≤ 0xEF then
    (⟨b % 16, 2, if b = 0xE0 then 0xA0 else 0x80, if b = 0xED then 0x9F else 0xBF⟩, [])
  else if 0xF0 ≤ b ∧ b ≤ 0xF4 then
    (⟨b % 8, 3, if b = 0xF0 then 0x90 else 0x80, if b = 0xF4 then 0x8F else 0xBF⟩, [])
  else (DecoderState.init, [replacementChar])

/-- Decode one byte in an arbitrary decoder state.  An out-of-range
continuation byte emits U+FFFD and is then reprocessed from the fresh
state, as the WHATWG algorithm prescribes. -/
def utf8Step (s : DecoderState) (b : Nat) : DecoderState × List Char :=
  if s.needed = 0 then utf8Start b
  else if s.lower ≤ b ∧ b ≤ s.upper then
    let cp := s.codepoint * 64 + b % 64
    if s.needed = 1 then (DecoderState.init, [Char.ofNat cp])
    else (⟨cp, s.needed - 1, 0x80, 0xBF⟩, [])
  else
    let r := utf8Start b
    (r.1, replacementChar :: r.2)

/-- Decode a whole byte chunk, threading the decoder state. -/
def utf8DecodeChunk (s : DecoderState) : List Nat → DecoderState × List Char
  | [] => (s, [])
  | b :: rest =>
    let p := utf8Step s b
    let q := utf8DecodeChunk p.1 rest
    (q.1, p.2 ++ q.2)

/-- Text produced by decoding a byte sequence from the fresh state (what a
single call with the whole stream would yield, trailing incomplete
sequence still pending). -/
def utf8DecodeAll (bs : List Nat) : List Char :=
  (utf8DecodeChunk DecoderState.init bs).2

/-! ## Line splitting and trimming

`readLoop` accumulates decoded text in `readBuffer` and repeatedly splits
off everything before the first `'\n'`
(`while ((newlineIndex = readBuffer.current.indexOf('\n')) !== -1) ...`),
trimming each segment and handing it to `processLine`, which drops empty
lines (`if (!line) return;`).
-/

/-- Leading- and trailing-whitespace trim of a character list (model of
`String.prototype.trim`). -/
def trimChars (l : List Char) : List Char :=
  ((l.dropWhile Char.isWhitespace).reverse.dropWhile Char.isWhitespace).reverse

/-- Split a buffer at every newline: returns the newline-terminated
segments in order together with the trailing unterminated remainder
(the text `readBuffer` still holds after the `while` loop). -/
def splitBuffer : List Char → List (List Char) × List Char
  | [] => ([], [])
  | c :: rest =>
    let p := splitBuffer rest
    if c = '\n' then ([] :: p.1, p.2)
    else
      match p.1 with
      | [] => ([], c :: p.2)
      | s :: ss => ((c :: s) :: ss, p.2)

/-- What `processLine` lets through for a list of raw segments: each
segment trimmed, empty results discarded. -/
def emittedLines (segs : List (List Char)) : List (List Char) :=
  (segs.map trimChars).filter (fun l => l ≠ [])

/-- Full framer state: the `TextDecoder`'s pending multi-byte sequence and
the decoded-but-unterminated text in `readBuffer`. -/
structure FramerState where
  dec : DecoderState
  buf : List Char
deriving DecidableEq, Repr

/-- Framer state right after `connect` (`readBuffer.current = ''`, fresh
decoder). -/
def FramerState.start : FramerState := ⟨DecoderState.init, []⟩

/-- One iteration of `readLoop`'s chunk handling: decode the chunk in
streaming mode, append to `readBuffer`, split off every terminated line
and emit the trimmed non-empty ones via `processLine`. -/
def feedChunk (s : FramerState) (chunk : List Nat) : FramerState × List (List Char) :=
  let d := utf8DecodeChunk s.dec chunk
  let p := splitBuffer (s.buf ++ d.2)
  (⟨d.1, p.2⟩, emittedLines p.1)

/-- Feed a sequence of chunks, concatenating the emitted lines in order. -/
def feedChunks (s : FramerState) : List (List Nat) → FramerState × List (List Char)
  | [] => (s, [])
  | c :: cs =>
    let p := feedChunk s c
    let q := feedChunks p.1 cs
    (q.1, p.2 ++ q.2)

/-! ## Stream-end handling

`src/hooks/useSerial.ts`, `readLoop` (lines 114-120): on `done`, a
non-whitespace remainder is trimmed, emitted, and the buffer cleared.
`src/unnamed/part_002`, `readLoop` (lines 98-100): on `done` the loop
only breaks — nothing is emitted and the buffer is untouched. -/

/-- Stream-end (`done`) handling of `readLoop` in `src/hooks/useSerial.ts`:
`if (readBuffer.current.trim()) { processLine(readBuffer.current.trim()); readBuffer.current = ''; }`. -/
def onStreamDone (buf : List Char) : List Char × List (List Char) :=
  if trimChars buf ≠ [] then ([], [trimChars buf]) else (buf, [])

/-- Stream-end (`done`) handling of `readLoop` in `src/unnamed/part_002`:
`if (done) { break; }` — no flush. -/
def onStreamDonePartTwo (buf : List Char) : List Char × List (List Char) :=
  (buf, [])

/-! ### Sanity checks on concrete inputs (spec section 8 examples) -/

example : (feedChunks FramerState.start [[65, 10, 66, 10]]).2 = [['A'], ['B']] := by decide

example : (feedChunks FramerState.start [[65, 10], [66, 10]]).2 = [['A'], ['B']] := by decide

example : (feedChunks FramerState.start [[65, 10, 66], [10]]).2 = [['A'], ['B']] := by decide

example : (feedChunks FramerState.start [[10], [32, 10]]).2 = [] := by decide

example : (feedChunks FramerState.start [[206], [177, 10]]).2 = [[Char.ofNat 0x3B1]] := by decide

/-! ## Split-invariance of the framer (claim C1) -/

/-- Streaming decoding is compositional: decoding `a ++ b` equals decoding
`a`, then decoding `b` from the resulting state. -/
theorem utf8DecodeChunk_append (a b : List Nat) (s : DecoderState) :
    utf8DecodeChunk s (a ++ b) =
      ((utf8DecodeChunk (utf8DecodeChunk s a).1 b).1,
       (utf8DecodeChunk s a).2 ++ (utf8DecodeChunk (utf8DecodeChunk s a).1 b).2) := by
  induction a generalizing s with
  | nil => simp [utf8DecodeChunk]
  | cons x xs ih => simp [utf8DecodeChunk, ih]

/-- Buffer splitting is compositional: the terminated segments of `a ++ b`
are those of `a` followed by those of `a`'s remainder prepended to `b`. -/
theorem splitBuffer_append (a b : List Char) :
    splitBuffer (a ++ b) =
      ((splitBuffer a).1 ++ (splitBuffer ((splitBuffer a).2 ++ b)).1,
       (splitBuffer ((splitBuffer a).2 ++ b)).2) := by
  induction a with
  | nil => simp [splitBuffer]
  | cons c cs ih =>
    by_cases hc : c = '\n'
    · simp [splitBuffer, hc, ih]
    · rcases h1 : (splitBuffer cs).1 with _ | ⟨s, ss⟩
      · rcases h2 : (splitBuffer ((splitBuffer cs).2 ++ b)).1 with _ | ⟨t, ts⟩
        · simp [splitBuffer, hc, ih, h1, h2]
        · simp [splitBuffer, hc, ih, h1, h2]
      · simp [splitBuffer, hc, ih, h1]

/-- The remainder kept in the buffer never contains a newline. -/
theorem splitBuffer_snd_no_newline (l : List Char) : '\n' ∉ (splitBuffer l).2 := by
  induction l with
  | nil => simp [splitBuffer]
  | cons c cs ih =>
    by_cases hc : c = '\n'
    · simpa [splitBuffer, hc] using ih
    · rcases h1 : (splitBuffer cs).1 with _ | ⟨s, ss⟩
      · simp [splitBuffer, hc, h1]
        exact ⟨fun h => hc h.symm, by simpa [h1] using ih⟩
      · simpa [splitBuffer, hc, h1] using ih

/-- A newline-free buffer splits into no segments and itself. -/
theorem splitBuffer_eq_of_no_newline (l : List Char) (h : '\n' ∉ l) :
    splitBuffer l = ([], l) := by
  induction l with
  | nil => simp [splitBuffer]
  | cons c cs ih =>
    simp only [List.mem_cons, not_or] at h
    have hc : c ≠ '\n' := fun hcc => h.1 hcc.symm
    simp [splitBuffer, hc, ih h.2]

/-- `emittedLines` distributes over segment concatenation. -/
theorem emittedLines_append (a b : List (List Char)) :
    emittedLines (a ++ b) = emittedLines a ++ emittedLines b := by
  simp [emittedLines, List.filter_append]

/-- The buffer kept by `feedChunk` is the split remainder. -/
theorem feedChunk_fst_buf (s : FramerState) (c : List Nat) :
    (feedChunk s c).1.buf = (splitBuffer (s.buf ++ (utf8DecodeChunk s.dec c).2)).2 := rfl

/-- Feeding `a ++ b` as one chunk equals feeding `a` then `b`. -/
theorem feedChunk_append (s : FramerState) (a b : List Nat) :
    feedChunk s (a ++ b) =
      ((feedChunk (feedChunk s a).1 b).1,
       (feedChunk s a).2 ++ (feedChunk (feedChunk s a).1 b).2) := by
  simp only [feedChunk, utf8DecodeChunk_append a b s.dec]
  rw [← List.append_assoc,
      splitBuffer_append (s.buf ++ (utf8DecodeChunk s.dec a).2)
        ((utf8DecodeChunk (utf8DecodeChunk s.dec a).1 b).2)]
  simp [emittedLines_append]

/-- As long as the buffer holds no newline (an invariant of every reachable
framer state), feeding a chunk list equals feeding its concatenation as a
single chunk. -/
theorem feedChunks_eq_join (chunks : List (List Nat)) :
    ∀ s : FramerState, '\n' ∉ s.buf → feedChunks s chunks = feedChunk s chunks.flatten := by
  induction chunks with
  | nil =>
    intro s h
    cases s with
    | mk d buf =>
      simp [feedChunks, feedChunk, utf8DecodeChunk,
        splitBuffer_eq_of_no_newline _ h, emittedLines]
  | cons c cs ih =>
    intro s h
    have hb : '\n' ∉ (feedChunk s c).1.buf := by
      rw [feedChunk_fst_buf]
      exact splitBuffer_snd_no_newline _
    simp only [feedChunks, List.flatten_cons]
    rw [ih _ hb, feedChunk_append]

/-- Claim C1: for every finite sequence of byte chunks, feeding the chunks
to the line framer emits exactly the newline-terminated segments of the
concatenated decoding that are non-empty after trimming, each trimmed, in
order — independently of where the chunk boundaries fall (including
mid multi-byte character), and segments that are empty after trimming are
never emitted. -/
theorem lineFramer_chunking_invariant (chunks : List (List Nat)) :
    (feedChunks FramerState.start chunks).2 =
      emittedLines (splitBuffer (utf8DecodeAll chunks.flatten)).1 := by
  rw [feedChunks_eq_join chunks FramerState.start (by simp [FramerState.start])]
  simp [feedChunk, utf8DecodeAll, FramerState.start]

/-- Claim C8 (code divergence witness): at stream end with buffered text
`"ABC"`, the `readLoop` of `src/hooks/useSerial.ts` emits the trimmed
trailing line and clears the buffer, while the `readLoop` of
`src/unnamed/part_002` emits nothing and leaves the buffer untouched. -/
theorem streamDone_flush_divergence :
    onStreamDone ['A', 'B', 'C'] = ([], [['A', 'B', 'C']]) ∧
    onStreamDonePartTwo ['A', 'B', 'C'] = (['A', 'B', 'C'], []) := by
  constructor
  · decide
  · rfl

/-! ## Transport router and dedup policy

Model of `handleIncomingText` and `handleClearHistory` from the main App
component (`src/hooks/useRemote.ts` concatenated sources, lines 728-746).
`crypto.randomUUID()` and `Date.now()` are external inputs, passed as
arguments.  The emitted text-to-speech call is returned as an `Option`
alongside the new state. -/

/-- Origin tag of a unified message. -/
inductive Origin
  | device
  | user
deriving DecidableEq, Repr

/-- A `SerialMessage` as built by `handleIncomingText`. -/
structure SerialMessage where
  id : Nat
  text : String
  timestamp : Nat
  origin : Origin
deriving DecidableEq, Repr

/-- The reserved emergency sentinel text. -/
def sosTrigger : String := "!!SOS_TRIGGER!!"

/-- Router state touched by `handleIncomingText` / `handleClearHistory`:
the SOS flag, the history ring, the dedup state (`lastProcessedText`) and
the live display message. -/
structure AppState where
  isSosActive : Bool
  history : List SerialMessage
  lastProcessedText : String
  currentDisplayMessage : Option SerialMessage
deriving DecidableEq, Repr

/-- `handleIncomingText(text, origin)`: set the SOS flag on a Device-origin
sentinel, then return early when Device-origin dedup applies; otherwise
build the message, update the dedup state for Device origin, set the
display, optionally speak, and prepend to the history truncated to 30.
The second component is the text handed to `speak`, if any. -/
def handleIncomingText (allowDuplicates isSpeakingEnabled : Bool) (newId ts : Nat)
    (s : AppState) (text : String) (origin : Origin) : AppState × Option String :=
  let s := if text = sosTrigger ∧ origin = Origin.device then
    { s with isSosActive := true } else s
  if origin = Origin.device ∧ allowDuplicates = false ∧ text = s.lastProcessedText then
    (s, none)
  else
    let newMessage : SerialMessage := ⟨newId, text, ts, origin⟩
    let s := if origin = Origin.device then { s with lastProcessedText := text } else s
    let s := { s with currentDisplayMessage := some newMessage }
    let spoken := if isSpeakingEnabled ∧ origin = Origin.device ∧ text ≠ sosTrigger then
      some text else none
    ({ s with history := (newMessage :: s.history).take 30 }, spoken)

/-- `handleClearHistory`: empty the history, reset the dedup state, clear
the display. -/
def handleClearHistory (s : AppState) : AppState :=
  { s with history := [], lastProcessedText := "", currentDisplayMessage := none }

/-- Claim C3: Device-origin text equal to the dedup state with dedup
enabled is suppressed (history, display and dedup state untouched);
any other ingestion prepends the new message and truncates the history to
the newest 30; the dedup state is updated only by Device-origin ingestion;
User-origin text is never suppressed. -/
theorem ingest_dedup_policy (allowDuplicates isSpeakingEnabled : Bool) (newId ts : Nat)
    (s : AppState) (text : String) (origin : Origin) :
    (origin = Origin.device → allowDuplicates = false → text = s.lastProcessedText →
      (handleIncomingText allowDuplicates isSpeakingEnabled newId ts s text origin).1.history
          = s.history ∧
      (handleIncomingText allowDuplicates isSpeakingEnabled newId ts s text origin).1.currentDisplayMessage
          = s.currentDisplayMessage ∧
      (handleIncomingText allowDuplicates isSpeakingEnabled newId ts s text origin).1.lastProcessedText
          = s.lastProcessedText) ∧
    (¬(origin = Origin.device ∧ allowDuplicates = false ∧ text = s.lastProcessedText) →
      (handleIncomingText allowDuplicates isSpeakingEnabled newId ts s text origin).1.history
          = (⟨newId, text, ts, origin⟩ :: s.history).take 30 ∧
      (handleIncomingText allowDuplicates isSpeakingEnabled newId ts s text origin).1.history.length
          ≤ 30 ∧
      (handleIncomingText allowDuplicates isSpeakingEnabled newId ts s text origin).1.lastProcessedText
          = (if origin = Origin.device then text else s.lastProcessedText)) ∧
    (origin = Origin.user →
      (handleIncomingText allowDuplicates isSpeakingEnabled newId ts s text origin).1.history
          = (⟨newId, text, ts, Origin.user⟩ :: s.history).take 30 ∧
      (handleIncomingText allowDuplicates isSpeakingEnabled newId ts s text origin).1.lastProcessedText
          = s.lastProcessedText) ∧
    ((handleClearHistory s).history = [] ∧ (handleClearHistory s).lastProcessedText = "") := by
  unfold handleIncomingText
  simp only [handleIncomingText, handleClearHistory]
  split_ifs <;> simp_all [List.length_take]

/-- Witness for `ingest_dedup_policy`: ingesting Device text `"Hello"`
when the dedup state already holds `"Hello"` leaves the history empty. -/
theorem ingest_dedup_policy_witness :
    (handleIncomingText false true 1 2 ⟨false, [], "Hello", none⟩ "Hello"
        Origin.device).1.history = [] :=
  ((ingest_dedup_policy false true 1 2 ⟨false, [], "Hello", none⟩ "Hello"
      Origin.device).1 rfl rfl rfl).1

/-- Claim C2 counterexample: with dedup enabled and the previous
Device-origin text already the sentinel, ingesting the sentinel again
produces no history entry at all (the sentinel message is
dedup-suppressed), so a flagged history entry is not always produced;
only the SOS flag changes. -/
theorem sos_repeat_suppressed_counterexample :
    (handleIncomingText false true 1 1 ⟨false, [], sosTrigger, none⟩ sosTrigger
        Origin.device).1.history = [] ∧
    (handleIncomingText false true 1 1 ⟨false, [], sosTrigger, none⟩ sosTrigger
        Origin.device)
      = ({ isSosActive := true, history := [], lastProcessedText := sosTrigger,
           currentDisplayMessage := none }, none) := by
  constructor <;> rfl

/-- Claim C2 amended: a Device-origin sentinel ingestion with dedup enabled
always raises the SOS flag; it yields a (flagged) history entry exactly
when the previous Device-origin text was not already the sentinel — a
consecutively repeated sentinel is dedup-suppressed from history. -/
theorem sos_sentinel_history (isSpeakingEnabled : Bool) (newId ts : Nat) (s : AppState) :
    (handleIncomingText false isSpeakingEnabled newId ts s sosTrigger
        Origin.device).1.isSosActive = true ∧
    (s.lastProcessedText ≠ sosTrigger →
      (handleIncomingText false isSpeakingEnabled newId ts s sosTrigger
          Origin.device).1.history
        = (⟨newId, sosTrigger, ts, Origin.device⟩ :: s.history).take 30) ∧
    (s.lastProcessedText = sosTrigger →
      (handleIncomingText false isSpeakingEnabled newId ts s sosTrigger
          Origin.device).1.history = s.history) := by
  by_cases hlp : sosTrigger = s.lastProcessedText
  · refine ⟨by simp [handleIncomingText, hlp], fun hne => absurd hlp.symm hne,
      fun _ => by simp [handleIncomingText, hlp]⟩
  · refine ⟨by simp [handleIncomingText, hlp], fun _ => by simp [handleIncomingText, hlp],
      fun heq => absurd heq.symm hlp⟩

/-- Witness for `sos_sentinel_history`: a first sentinel arrival lands in
the history. -/
theorem sos_sentinel_history_witness :
    (handleIncomingText false true 1 1 ⟨false, [], "", none⟩ sosTrigger
        Origin.device).1.history = [⟨1, sosTrigger, 1, Origin.device⟩] := by
  have h := (sos_sentinel_history true 1 1 ⟨false, [], "", none⟩).2.1 (by decide)
  simpa using h

/-- Claim C10: a Device-origin sentinel ingestion sets the SOS flag before
the dedup check, so the alarm fires on every sentinel arrival — including
a consecutively repeated sentinel whose message itself is dedup-suppressed
from history and display. -/
theorem sos_flag_before_dedup (allowDuplicates isSpeakingEnabled : Bool) (newId ts : Nat)
    (s : AppState) :
    (handleIncomingText allowDuplicates isSpeakingEnabled newId ts s sosTrigger
        Origin.device).1.isSosActive = true ∧
    (allowDuplicates = false → s.lastProcessedText = sosTrigger →
      (handleIncomingText allowDuplicates isSpeakingEnabled newId ts s sosTrigger
          Origin.device).1.history = s.history ∧
      (handleIncomingText allowDuplicates isSpeakingEnabled newId ts s sosTrigger
          Origin.device).1.currentDisplayMessage = s.currentDisplayMessage) := by
  by_cases had : allowDuplicates = false <;> by_cases hlp : sosTrigger = s.lastProcessedText <;>
    refine ⟨by simp [handleIncomingText, had, hlp], fun h1 h2 => ?_⟩ <;>
    simp_all [handleIncomingText]

/-- Witness for `sos_flag_before_dedup`: on a suppressed repeat of the
sentinel the alarm still fires while the history stays empty. -/
theorem sos_flag_before_dedup_witness :
    (handleIncomingText false true 3 4 ⟨false, [], sosTrigger, none⟩ sosTrigger
        Origin.device).1.isSosActive = true ∧
    (handleIncomingText false true 3 4 ⟨false, [], sosTrigger, none⟩ sosTrigger
        Origin.device).1.history = [] :=
  ⟨(sos_flag_before_dedup false true 3 4 ⟨false, [], sosTrigger, none⟩).1,
   ((sos_flag_before_dedup false true 3 4 ⟨false, [], sosTrigger, none⟩).2 rfl rfl).1⟩

/-! ## Peer session manager

Model of `src/hooks/useRemote.ts`.  The PeerJS endpoint (`peerRef`) and
data connection (`connRef`) are abstracted to the fields the code reads:
`peer.disconnected`, `peer.destroyed`, `conn.open`.  Imperative handlers
become pure functions from the refs they read to an ordered list of
primitive effects (and an updated ref where they assign one). -/

/-- The fields of the underlying PeerJS endpoint that the code inspects. -/
structure PeerObj where
  disconnected : Bool
  destroyed : Bool
deriving DecidableEq, Repr

/-- The field of a data connection that the code inspects
(`connRef.current.open`); connections are tagged with an identifier so
that distinct connection objects can be told apart. -/
structure DataConnection where
  connId : Nat
  openFlag : Bool
deriving DecidableEq, Repr

/-- `connRef.current && connRef.current.open` (retry loop line 181 and
`sendData` line 163). -/
def connIsOpen (connRef : Option DataConnection) : Bool :=
  match connRef with
  | some c => c.openFlag
  | none => false

/-- The namespaced signaling identity `initializePeer` registers
(line 28: a preferred identity is prefixed with `sg-v2-`; a falsy one —
absent or empty — yields a server-assigned random identity). -/
def peerIdFor (preferredId : Option String) : Option String :=
  match preferredId with
  | some pid => if pid = "" then none else some ("sg-v2-" ++ pid)
  | none => none

/-- Primitive effects the peer handlers can issue. -/
inductive PeerEffect
  | closeConn (connId : Nat)
  | installHandlers (connId : Nat)
  | destroyPeer
  | scheduleReinit (delayMs : Nat) (preferredId : String)
  | reconnect
  | initializePeer
  | attemptConnection (targetId : String)
  | sendPayload (text : String)
deriving DecidableEq, Repr

/-- The `peer.on('connection')` handler (lines 54-61) followed by the
`connRef` assignment that opens `setupConnectionHandlers` (line 133):
close any previously held connection, then install the new connection's
handlers and make it current. -/
def onIncomingConnection (connRef : Option DataConnection) (conn : DataConnection) :
    List PeerEffect × Option DataConnection :=
  let closeEffects := match connRef with
    | some old => [PeerEffect.closeConn old.connId]
    | none => []
  (closeEffects ++ [PeerEffect.installHandlers conn.connId], some conn)

/-- The `peer.on('error')` handler (lines 63-74): on an `unavailable-id`
error while hosting a (truthy) preferred identity, destroy the endpoint
and schedule, after 1500 ms, a reinitialisation with the very same
preferred identity; every other error leaves the session alone. -/
def onPeerError (preferredId : Option String) (errType : String) : List PeerEffect :=
  match preferredId with
  | some pid =>
    if errType = "unavailable-id" ∧ pid ≠ "" then
      [PeerEffect.destroyPeer, PeerEffect.scheduleReinit 1500 pid]
    else []
  | none => []

/-- `sendData(text)` (lines 162-166): forward over the current connection
only when it reports itself open; otherwise do nothing. -/
def sendData (connRef : Option DataConnection) (text : String) :
    List PeerEffect :=
  if connIsOpen connRef then
    match connRef with
    | some _ => [PeerEffect.sendPayload text]
    | none => []
  else []

/-- The fixed period of the repair loop (`setInterval(..., 2000)`,
line 200). -/
def retryIntervalMs : Nat := 2000

/-- One tick of the repair loop (lines 176-200): act only while mounted
and while a (truthy) target identity is remembered; a tick with an open
connection is a no-op; otherwise reconnect a signaling-disconnected but
not destroyed endpoint, else create a missing endpoint, else — only for a
non-destroyed endpoint — reissue the outbound connection attempt. -/
def retryTick (mounted : Bool) (targetIdRef : Option String)
    (connRef : Option DataConnection) (peerRef : Option PeerObj) : Option PeerEffect :=
  if mounted = false then none
  else
    match targetIdRef with
    | none => none
    | some target =>
      if target = "" then none
      else if connIsOpen connRef then none
      else if (match peerRef with
               | some p => p.disconnected && !p.destroyed
               | none => false) then some PeerEffect.reconnect
      else if peerRef = none then some PeerEffect.initializePeer
      else if (match peerRef with
               | some p => !p.destroyed
               | none => false) then some (PeerEffect.attemptConnection target)
      else none

/-- Claim C4 counterexample: a tick with a remembered target, no open
connection, and an existing but destroyed endpoint performs no action at
all — contrary to the claim's catch-all "(3) otherwise issue one outbound
connection attempt". -/
theorem retry_catchall_counterexample :
    retryTick true (some "1234") none (some ⟨false, true⟩) = none ∧
    retryTick true (some "1234") none (some ⟨false, true⟩)
      ≠ some (PeerEffect.attemptConnection "1234") := by
  constructor <;> decide

/-- Claim C4 amended: the 2-second repair tick acts only while a target
identity is remembered; with an open connection it is a no-op; otherwise
it reconnects a signaling-disconnected, not destroyed endpoint, else
creates a missing endpoint, else reissues the outbound attempt to the
remembered target provided the endpoint is not destroyed — and does
nothing when the endpoint exists but is destroyed. -/
theorem retryTick_repair_policy (mounted : Bool) (targetIdRef : Option String)
    (connRef : Option DataConnection) (peerRef : Option PeerObj) :
    retryIntervalMs = 2000 ∧
    (targetIdRef = none → retryTick mounted targetIdRef connRef peerRef = none) ∧
    (connIsOpen connRef = true → retryTick mounted targetIdRef connRef peerRef = none) ∧
    (∀ t p, mounted = true → targetIdRef = some t → t ≠ "" →
      connIsOpen connRef = false → peerRef = some p →
      p.disconnected = true → p.destroyed = false →
      retryTick mounted targetIdRef connRef peerRef = some PeerEffect.reconnect) ∧
    (∀ t, mounted = true → targetIdRef = some t → t ≠ "" →
      connIsOpen connRef = false → peerRef = none →
      retryTick mounted targetIdRef connRef peerRef = some PeerEffect.initializePeer) ∧
    (∀ t p, mounted = true → targetIdRef = some t → t ≠ "" →
      connIsOpen connRef = false → peerRef = some p →
      p.disconnected = false → p.destroyed = false →
      retryTick mounted targetIdRef connRef peerRef = some (PeerEffect.attemptConnection t)) ∧
    (∀ t p, targetIdRef = some t → peerRef = some p → p.destroyed = true →
      connIsOpen connRef = false →
      retryTick mounted targetIdRef connRef peerRef = none) := by
  refine ⟨rfl, ?_, ?_, ?_, ?_, ?_, ?_⟩
  · intro h
    subst h
    cases mounted <;> simp [retryTick]
  · intro h
    cases mounted <;> cases targetIdRef <;> simp [retryTick, h]
  · intro t p hm ht hne hco hp hd hds
    subst hm ht hp
    simp [retryTick, hne, hco, hd, hds]
  · intro t hm ht hne hco hp
    subst hm ht hp
    simp [retryTick, hne, hco]
  · intro t p hm ht hne hco hp hd hds
    subst hm ht hp
    simp [retryTick, hne, hco, hd, hds]
  · intro t p ht hp hds hco
    subst ht hp
    cases mounted <;> simp [retryTick, hco, hds]

/-- Witness for `retryTick_repair_policy`: a healthy endpoint with no open
connection triggers exactly one outbound attempt to the remembered
target. -/
theorem retryTick_repair_policy_witness :
    retryTick true (some "1234") none (some ⟨false, false⟩)
      = some (PeerEffect.attemptConnection "1234") :=
  (retryTick_repair_policy true (some "1234") none
      (some ⟨false, false⟩)).2.2.2.2.2.1 "1234" ⟨false, false⟩
    rfl rfl (by decide) rfl rfl rfl rfl

/-- Claim C5: an inbound connection while a connection object is held
first closes the prior connection and only then installs the new
connection's handlers, which becomes the sole current connection
(last-writer-wins). -/
theorem host_replaces_connection (connRef : Option DataConnection) (conn : DataConnection) :
    (onIncomingConnection connRef conn).2 = some conn ∧
    (∀ old, connRef = some old →
      ∃ i j : Nat, i < j ∧
        (onIncomingConnection connRef conn).1[i]? = some (PeerEffect.closeConn old.connId) ∧
        (onIncomingConnection connRef conn).1[j]? =
          some (PeerEffect.installHandlers conn.connId)) ∧
    (connRef = none →
      (onIncomingConnection connRef conn).1 = [PeerEffect.installHandlers conn.connId]) := by
  refine ⟨rfl, ?_, ?_⟩
  · intro old h
    subst h
    exact ⟨0, 1, by decide, rfl, rfl⟩
  · intro h
    subst h
    rfl

/-- Witness for `host_replaces_connection`: connection 1 is closed before
connection 2's handlers are installed. -/
theorem host_replaces_connection_witness :
    (onIncomingConnection (some ⟨1, true⟩) ⟨2, false⟩).2 = some ⟨2, false⟩ ∧
    ∃ i j : Nat, i < j ∧
      (onIncomingConnection (some ⟨1, true⟩) ⟨2, false⟩).1[i]?
        = some (PeerEffect.closeConn 1) ∧
      (onIncomingConnection (some ⟨1, true⟩) ⟨2, false⟩).1[j]?
        = some (PeerEffect.installHandlers 2) :=
  ⟨(host_replaces_connection (some ⟨1, true⟩) ⟨2, false⟩).1,
   (host_replaces_connection (some ⟨1, true⟩) ⟨2, false⟩).2.1 ⟨1, true⟩ rfl⟩

/-- Claim C6: an `unavailable-id` error while hosting destroys the
endpoint and schedules, after the fixed 1.5-second backoff, a retry with
the identical preferred identity — every scheduled reinitialisation
carries the same identity, hence registers the same namespaced
signaling identity. -/
theorem collision_retry_same_identity (pid : String) (h : pid ≠ "") :
    onPeerError (some pid) "unavailable-id"
      = [PeerEffect.destroyPeer, PeerEffect.scheduleReinit 1500 pid] ∧
    (∀ d pid', PeerEffect.scheduleReinit d pid' ∈ onPeerError (some pid) "unavailable-id" →
      d = 1500 ∧ peerIdFor (some pid') = peerIdFor (some pid)) := by
  constructor
  · simp [onPeerError, h]
  · intro d pid' hm
    simp [onPeerError, h] at hm
    exact ⟨hm.1, by rw [hm.2]⟩

/-- Witness for `collision_retry_same_identity` at the reference 4-digit
identity. -/
theorem collision_retry_same_identity_witness :
    onPeerError (some "1234") "unavailable-id"
      = [PeerEffect.destroyPeer, PeerEffect.scheduleReinit 1500 "1234"] :=
  (collision_retry_same_identity "1234" (by decide)).1

/-- Claim C7: `send(text)` forwards over the current connection only when
it reports itself open; otherwise it does nothing — no effect at all is
issued. -/
theorem send_fire_and_forget (connRef : Option DataConnection) (text : String) :
    (connIsOpen connRef = true → sendData connRef text = [PeerEffect.sendPayload text]) ∧
    (connIsOpen connRef = false → sendData connRef text = []) := by
  constructor <;> intro h <;> cases connRef <;> simp_all [sendData, connIsOpen]

/-- Witness for `send_fire_and_forget`: an open connection forwards, a
non-open one drops silently. -/
theorem send_fire_and_forget_witness :
    sendData (some ⟨5, true⟩) "Hello" = [PeerEffect.sendPayload "Hello"] ∧
    sendData (some ⟨5, false⟩) "Hello" = [] :=
  ⟨(send_fire_and_forget (some ⟨5, true⟩) "Hello").1 rfl,
   (send_fire_and_forget (some ⟨5, false⟩) "Hello").2 rfl⟩

/-! ## Device adapter disconnect (claim C9)

`disconnect` in `src/hooks/useSerial.ts` (lines 178-202): stop the read
loop, cancel the reader inside a swallowed `try/catch`, then (deferred
teardown) close the port inside a swallowed `try/catch`, drop the port,
mark disconnected and clear the buffer.  The two Boolean oracles stand for
the underlying `reader.cancel()` / `port.close()` promises rejecting; both
rejections are caught and ignored by the code, so they influence
nothing. -/

/-- Mutable state of `useSerial` touched by `disconnect`. -/
structure SerialConnState where
  keepReading : Bool
  portPresent : Bool
  isConnected : Bool
  readBuffer : List Char
deriving DecidableEq, Repr

/-- `disconnect()` including its deferred teardown. -/
def disconnect (_cancelFails _closeFails : Bool) (s : SerialConnState) : SerialConnState :=
  let s1 := { s with keepReading := false }
  { s1 with portPresent := false, isConnected := false, readBuffer := [] }

/-- Claim C9: from any state, `disconnect` leaves the adapter
disconnected whether or not the underlying cancel/close operations fail,
and a second `disconnect` changes nothing and leaves it disconnected
again. -/
theorem disconnect_twice_safe (c1 k1 c2 k2 : Bool) (s : SerialConnState) :
    (disconnect c1 k1 s).isConnected = false ∧
    disconnect c2 k2 (disconnect c1 k1 s) = disconnect c1 k1 s ∧
    (disconnect c2 k2 (disconnect c1 k1 s)).isConnected = false :=
  ⟨rfl, rfl, rfl⟩
